import Mathlib

/-!
# BeeLive threshold/severity core — verification development

Shallow embedding of the threshold-classification and gauge-segment
derivation logic of the BeeLive dashboard, together with proofs of the
specified properties.

Numbers are embedded as rationals (`ℚ`): the source operates on JS numbers
with plain ordered comparisons and linear arithmetic, and none of the
properties below depend on floating-point rounding.  The behaviour of the
IEEE special values (NaN, ±Infinity), which one claim is about, is embedded
separately and exactly in the `JSSem` namespace.

Namespaces mirror the source files:
 * `BeeLive.TelemetryTransform` — `src/lib/utils/telemetry-transform.ts`
   (the active implementation);
 * `BeeLive.TelemetryTransformAlt` — the config-driven variant of the same
   module present in the repository (unnamed source file, the one importing
   `metrics.config`);
 * `BeeLive.MetricsConfig` — `src/lib/config/metrics.config.ts` together
   with the validation section present in its extended variant;
 * `BeeLive.JSSem` — re-embedding of the transform functions over a JS
   number type with the IEEE special values.
-/

namespace BeeLive

/-- Severity tier, `type Severity = 'safe' | 'warning' | 'critical'`. -/
inductive Severity where
  | safe
  | warning
  | critical
deriving DecidableEq, Repr

/-- Metric topology, `type MetricType = 'ascending' | 'inverted' | 'range'`
(in `telemetry-transform.ts` the range topology is spelled `'normal'`). -/
inductive MetricType where
  | ascending
  | inverted
  | range
deriving DecidableEq, Repr

/-- `type GaugeSegment = { start; stop; color?; label? }`.  The optional
color/label fields are always populated at every construction site, so they
are embedded as plain fields. -/
structure GaugeSegment where
  start : ℚ
  stop : ℚ
  color : String
  label : String
deriving DecidableEq, Repr

/-- The six boundary numbers of one metric (spec §3 ThresholdSet). -/
structure ThresholdSet where
  normalMin : ℚ
  normalMax : ℚ
  warningMin : ℚ
  warningMax : ℚ
  criticalMin : ℚ
  criticalMax : ℚ
deriving DecidableEq, Repr

/-- `DisplayRange`: visual bounds of a gauge, `{ min, max }`. -/
structure DisplayRange where
  min : ℚ
  max : ℚ
deriving DecidableEq, Repr

/-- Correspondence between a severity tier and the `label` string carried by
the gauge segments of that tier at every construction site in the source
(`'Normal'`/`'Warning'`/`'Critical'`). -/
def severityLabel : Severity → String
  | .safe => "Normal"
  | .warning => "Warning"
  | .critical => "Critical"

namespace TelemetryTransform

/-- `calculateSeverity` of `telemetry-transform.ts` (lines 48–96).
The `metricType` default `'normal'` is the `range` constructor here; the
final `else` branch of the source is the `range` branch. -/
def calculateSeverity (value normalMin normalMax warningMin warningMax
    criticalMin criticalMax : ℚ) (metricType : MetricType) : Severity :=
  match metricType with
  | .ascending =>
      if value ≤ normalMax then .safe
      else if value ≤ warningMax then .warning
      else .critical
  | .inverted =>
      if value < warningMin then .critical
      else if value < normalMin then .warning
      else .safe
  | .range =>
      if value < criticalMin ∨ value > criticalMax then .critical
      else if value ≥ normalMin ∧ value ≤ normalMax then .safe
      else .warning

/-- `calculatePercent` of `telemetry-transform.ts` (lines 102–105):
clamp to `[min, max]`, then linear map to 0–100. -/
def calculatePercent (value mn mx : ℚ) : ℚ :=
  let clamped := max mn (min mx value)
  (clamped - mn) / (mx - mn) * 100

/-- The threshold fields consumed by `calculateSimplePercent`. -/
structure SimpleThresholds where
  normalMin : ℚ
  normalMax : ℚ
  warningMin : ℚ
  warningMax : ℚ
deriving DecidableEq, Repr

/-- The threshold fields consumed by `calculateRangeBasedPercent`. -/
structure RangeThresholds where
  normalMin : ℚ
  normalMax : ℚ
  criticalMin : ℚ
  criticalMax : ℚ
deriving DecidableEq, Repr

/-- `calculateSimplePercent` of `telemetry-transform.ts` (lines 117–149):
the dot is placed at the centre of the segment of the value's severity.
The source's `type` is `'ascending' | 'inverted'`; any non-ascending
argument takes the `else` (inverted) branch, exactly as in the source. -/
def calculateSimplePercent (value : ℚ) (thresholds : SimpleThresholds)
    (type : MetricType) (_displayRange : DisplayRange) : ℚ :=
  let leftCenter : ℚ := 16.67
  let topCenter : ℚ := 50
  let rightCenter : ℚ := 83.33
  if type = .ascending then
    if value ≤ thresholds.normalMax then leftCenter
    else if value ≤ thresholds.warningMax then topCenter
    else rightCenter
  else
    if value < thresholds.warningMin then leftCenter
    else if value < thresholds.normalMin then topCenter
    else rightCenter

/-- `calculateRangeBasedPercent` of `telemetry-transform.ts`
(lines 161–184): centre of one of the five fixed segments. -/
def calculateRangeBasedPercent (value : ℚ) (thresholds : RangeThresholds)
    (_displayRange : DisplayRange) : ℚ :=
  let criticalLowCenter : ℚ := 10
  let warningLowCenter : ℚ := 30
  let normalCenter : ℚ := 50
  let warningHighCenter : ℚ := 70
  let criticalHighCenter : ℚ := 90
  if value < thresholds.criticalMin then criticalLowCenter
  else if value < thresholds.normalMin then warningLowCenter
  else if value ≤ thresholds.normalMax then normalCenter
  else if value ≤ thresholds.criticalMax then warningHighCenter
  else criticalHighCenter

/-- `generateSimpleSegments` of `telemetry-transform.ts` (lines 193–246):
three fixed equal segments; the `valueRange` and `thresholds` arguments are
accepted but not used by the body. -/
def generateSimpleSegments (_valueRange : DisplayRange)
    (_thresholds : ThresholdSet) (type : MetricType) : List GaugeSegment :=
  let segmentSize : ℚ := 100 / 3
  if type = .inverted then
    [ { start := 0, stop := segmentSize, color := "#ef4444", label := "Critical" },
      { start := segmentSize, stop := segmentSize * 2, color := "#eab308", label := "Warning" },
      { start := segmentSize * 2, stop := 100, color := "#22c55e", label := "Normal" } ]
  else
    [ { start := 0, stop := segmentSize, color := "#22c55e", label := "Normal" },
      { start := segmentSize, stop := segmentSize * 2, color := "#eab308", label := "Warning" },
      { start := segmentSize * 2, stop := 100, color := "#ef4444", label := "Critical" } ]

/-- `generateRangeBasedSegments` of `telemetry-transform.ts`
(lines 259–298): five fixed equal segments; both arguments unused. -/
def generateRangeBasedSegments (_valueRange : DisplayRange)
    (_thresholds : ThresholdSet) : List GaugeSegment :=
  let segmentSize : ℚ := 100 / 5
  [ { start := 0, stop := segmentSize, color := "#ef4444", label := "Critical" },
    { start := segmentSize, stop := segmentSize * 2, color := "#eab308", label := "Warning" },
    { start := segmentSize * 2, stop := segmentSize * 3, color := "#22c55e", label := "Normal" },
    { start := segmentSize * 3, stop := segmentSize * 4, color := "#eab308", label := "Warning" },
    { start := segmentSize * 4, stop := 100, color := "#ef4444", label := "Critical" } ]

end TelemetryTransform

namespace TelemetryTransform

/-- C2: for range topology and a valid (chain-ordered) ThresholdSet, the
classifier returns `critical` exactly when `value < criticalMin` or
`value > criticalMax`, `safe` exactly when `normalMin ≤ value ≤ normalMax`,
and `warning` exactly otherwise; the definition checks the critical
envelope before the normal band, as the source does. -/
theorem range_severity_characterization
    (v nMin nMax wMin wMax cMin cMax : ℚ)
    (h₁ : cMin ≤ nMin) (h₂ : nMin ≤ nMax) (h₃ : nMax ≤ cMax) :
    (calculateSeverity v nMin nMax wMin wMax cMin cMax .range = .critical ↔
      (v < cMin ∨ v > cMax)) ∧
    (calculateSeverity v nMin nMax wMin wMax cMin cMax .range = .safe ↔
      (nMin ≤ v ∧ v ≤ nMax)) ∧
    (calculateSeverity v nMin nMax wMin wMax cMin cMax .range = .warning ↔
      (¬(v < cMin ∨ v > cMax) ∧ ¬(nMin ≤ v ∧ v ≤ nMax))) := by
  simp only [calculateSeverity]
  split_ifs with hc hn <;> simp_all <;>
    first
      | tauto
      | (intro h; rcases hc with hc | hc <;> linarith)

/-- Witness for `range_severity_characterization` at a concrete valid set. -/
theorem range_severity_characterization_witness :
    ((0 : ℚ) ≤ 10 ∧ (10 : ℚ) ≤ 20 ∧ (20 : ℚ) ≤ 30) ∧
    (calculateSeverity 15 10 20 5 25 0 30 .range = .safe ↔
      ((10 : ℚ) ≤ 15 ∧ (15 : ℚ) ≤ 20)) := by
  refine ⟨by norm_num, ?_⟩
  exact (range_severity_characterization 15 10 20 5 25 0 30
    (by norm_num) (by norm_num) (by norm_num)).2.1

/-- C3: full characterization of the ascending and inverted branches of the
classifier: ascending yields `safe` iff `value ≤ normalMax`, `warning` iff
`normalMax < value ≤ warningMax`, `critical` otherwise; inverted yields
`critical` iff `value < warningMin`, `warning` iff
`warningMin ≤ value < normalMin`, `safe` otherwise; and a value exactly on
the shared normal boundary is classified into the safe zone
(tie favours the lower severity). -/
theorem simple_severity_characterization
    (v nMin nMax wMin wMax cMin cMax : ℚ) :
    (calculateSeverity v nMin nMax wMin wMax cMin cMax .ascending = .safe ↔
      v ≤ nMax) ∧
    (calculateSeverity v nMin nMax wMin wMax cMin cMax .ascending = .warning ↔
      (nMax < v ∧ v ≤ wMax)) ∧
    (calculateSeverity v nMin nMax wMin wMax cMin cMax .ascending = .critical ↔
      (nMax < v ∧ wMax < v)) ∧
    (calculateSeverity v nMin nMax wMin wMax cMin cMax .inverted = .critical ↔
      v < wMin) ∧
    (calculateSeverity v nMin nMax wMin wMax cMin cMax .inverted = .warning ↔
      (wMin ≤ v ∧ v < nMin)) ∧
    (calculateSeverity v nMin nMax wMin wMax cMin cMax .inverted = .safe ↔
      (wMin ≤ v ∧ nMin ≤ v)) ∧
    (calculateSeverity nMax nMin nMax wMin wMax cMin cMax .ascending = .safe) ∧
    (nMax < wMax → calculateSeverity wMax nMin nMax wMin wMax cMin cMax .ascending = .warning) ∧
    (wMin ≤ nMin → calculateSeverity nMin nMin nMax wMin wMax cMin cMax .inverted = .safe) ∧
    (wMin < nMin → calculateSeverity wMin nMin nMax wMin wMax cMin cMax .inverted = .warning) := by
  refine ⟨?_, ?_, ?_, ?_, ?_, ?_, ?_, ?_, ?_, ?_⟩ <;>
    simp only [calculateSeverity] <;>
    split_ifs <;>
    simp_all

/-- Witness for `simple_severity_characterization`: the spec's CO2
boundary scenario — normal = [0, 2000], warning = [2000, 4000]:
`classify(2000) = safe` and `classify(4000) = warning`. -/
theorem simple_severity_characterization_witness :
    (calculateSeverity 2000 0 2000 2000 4000 4000 10000 .ascending = .safe ↔
      (2000 : ℚ) ≤ 2000) ∧
    (2000 : ℚ) < 4000 ∧
    calculateSeverity 4000 0 2000 2000 4000 4000 10000 .ascending =
      .warning := by
  refine ⟨(simple_severity_characterization 2000 0 2000 2000 4000 4000
    10000).1, by norm_num, ?_⟩
  exact (simple_severity_characterization 4000 0 2000 2000 4000 4000
    10000).2.2.2.2.2.2.2.1 (by norm_num)

/-- C5: with a non-degenerate display range, `calculatePercent` is the
linear map `100 * (clamp(value) − min) / (max − min)` of the value clamped
to `[min, max]`, and its result always lies in `[0, 100]`. -/
theorem calculatePercent_spec (v mn mx : ℚ) (h : mn < mx) :
    calculatePercent v mn mx = (max mn (min mx v) - mn) / (mx - mn) * 100 ∧
    0 ≤ calculatePercent v mn mx ∧ calculatePercent v mn mx ≤ 100 := by
  have hmx : max mn (min mx v) ≤ mx := max_le h.le (min_le_left _ _)
  have hmn : mn ≤ max mn (min mx v) := le_max_left _ _
  have hpos : (0 : ℚ) < mx - mn := by linarith
  have h1 : (0 : ℚ) ≤ (max mn (min mx v) - mn) / (mx - mn) :=
    div_nonneg (by linarith) hpos.le
  have h2 : (max mn (min mx v) - mn) / (mx - mn) ≤ 1 :=
    (div_le_one hpos).mpr (by linarith)
  refine ⟨rfl, ?_, ?_⟩
  · show 0 ≤ (max mn (min mx v) - mn) / (mx - mn) * 100
    linarith
  · show (max mn (min mx v) - mn) / (mx - mn) * 100 ≤ 100
    linarith

/-- Witness for `calculatePercent_spec`: the spec's concrete temperature
example, `percent(35.5, {min: 15, max: 45}) = 205/3 = 68.33…`. -/
theorem calculatePercent_spec_witness :
    (15 : ℚ) < 45 ∧
    (0 ≤ calculatePercent 35.5 15 45 ∧ calculatePercent 35.5 15 45 ≤ 100) ∧
    calculatePercent 35.5 15 45 = 205 / 3 := by
  refine ⟨by norm_num, (calculatePercent_spec 35.5 15 45 (by norm_num)).2, ?_⟩
  norm_num [calculatePercent]

/-- C10: in the active implementation the segment generators ignore their
`valueRange` and `thresholds` arguments: any two calls with the same type
return the same list, and the output is always three equal 100/3-wide
segments (simple) resp. five equal 20-wide segments (range-based). -/
theorem segment_generators_threshold_independent :
    (∀ (r₁ r₂ : DisplayRange) (t₁ t₂ : ThresholdSet) (ty : MetricType),
      generateSimpleSegments r₁ t₁ ty = generateSimpleSegments r₂ t₂ ty) ∧
    (∀ (r₁ r₂ : DisplayRange) (t₁ t₂ : ThresholdSet),
      generateRangeBasedSegments r₁ t₁ = generateRangeBasedSegments r₂ t₂) ∧
    (∀ (r : DisplayRange) (t : ThresholdSet) (ty : MetricType),
      (generateSimpleSegments r t ty).map (fun s => s.stop - s.start) =
        [100 / 3, 100 / 3, 100 / 3]) ∧
    (∀ (r : DisplayRange) (t : ThresholdSet),
      (generateRangeBasedSegments r t).map (fun s => s.stop - s.start) =
        [20, 20, 20, 20, 20]) := by
  refine ⟨?_, ?_, ?_, ?_⟩
  · intro r₁ r₂ t₁ t₂ ty; cases ty <;> rfl
  · intro r₁ r₂ t₁ t₂; rfl
  · intro r t ty; cases ty <;> simp [generateSimpleSegments] <;> norm_num
  · intro r t; simp [generateRangeBasedSegments]; norm_num

/-- The per-topology pairing of percent function and threshold fields used
by `transformTelemetryToMetrics`: range metrics use
`calculateRangeBasedPercent`, ascending/inverted metrics use
`calculateSimplePercent` with the corresponding type tag. -/
def gaugePercent (ty : MetricType) (v : ℚ) (ts : ThresholdSet)
    (dr : DisplayRange) : ℚ :=
  match ty with
  | .range =>
      calculateRangeBasedPercent v
        ⟨ts.normalMin, ts.normalMax, ts.criticalMin, ts.criticalMax⟩ dr
  | _ =>
      calculateSimplePercent v
        ⟨ts.normalMin, ts.normalMax, ts.warningMin, ts.warningMax⟩ ty dr

/-- The per-topology segment generator used by
`transformTelemetryToMetrics`. -/
def gaugeSegments (ty : MetricType) (dr : DisplayRange)
    (ts : ThresholdSet) : List GaugeSegment :=
  match ty with
  | .range => generateRangeBasedSegments dr ts
  | _ => generateSimpleSegments dr ts ty

/-- Validity of a ThresholdSet for a topology (spec §3: zones contiguous
and order-consistent): the inequalities between the boundaries that the
topology's zone layout requires. -/
def validFor : MetricType → ThresholdSet → Prop
  | .ascending, ts => ts.normalMax ≤ ts.warningMax
  | .inverted, ts => ts.warningMin ≤ ts.normalMin
  | .range, ts =>
      ts.criticalMin ≤ ts.normalMin ∧ ts.normalMin ≤ ts.normalMax ∧
        ts.normalMax ≤ ts.criticalMax

/-- C1: classifier/segment agreement in the active implementation — for
every topology, valid ThresholdSet, display range and value, the gauge
position produced by the percent function paired with that topology lies
inside a segment of the generated layout, and every segment containing
that position carries exactly the label of the severity returned by
`calculateSeverity`. -/
theorem classifier_segment_agreement (ty : MetricType) (ts : ThresholdSet)
    (dr : DisplayRange) (v : ℚ) (hvalid : validFor ty ts) :
    (∃ seg ∈ gaugeSegments ty dr ts,
        seg.start ≤ gaugePercent ty v ts dr ∧
        gaugePercent ty v ts dr ≤ seg.stop ∧
        seg.label = severityLabel (calculateSeverity v ts.normalMin
          ts.normalMax ts.warningMin ts.warningMax ts.criticalMin
          ts.criticalMax ty)) ∧
    (∀ seg ∈ gaugeSegments ty dr ts,
        seg.start ≤ gaugePercent ty v ts dr →
        gaugePercent ty v ts dr ≤ seg.stop →
        seg.label = severityLabel (calculateSeverity v ts.normalMin
          ts.normalMax ts.warningMin ts.warningMax ts.criticalMin
          ts.criticalMax ty)) := by
  cases ty with
  | ascending =>
      simp only [gaugePercent, gaugeSegments, calculateSimplePercent,
        generateSimpleSegments, calculateSeverity, severityLabel]
      split_ifs <;> simp_all <;> norm_num
  | inverted =>
      simp only [gaugePercent, gaugeSegments, calculateSimplePercent,
        generateSimpleSegments, calculateSeverity, severityLabel]
      split_ifs <;> simp_all <;> norm_num
  | range =>
      obtain ⟨h₁, h₂, h₃⟩ := hvalid
      have key : ∀ p : ℚ, ∀ lab : String,
          ((p = 10 ∧ lab = "Critical") ∨ (p = 30 ∧ lab = "Warning") ∨
            (p = 50 ∧ lab = "Normal") ∨ (p = 70 ∧ lab = "Warning") ∨
            (p = 90 ∧ lab = "Critical")) →
          (∃ seg ∈ gaugeSegments .range dr ts,
              seg.start ≤ p ∧ p ≤ seg.stop ∧ seg.label = lab) ∧
          (∀ seg ∈ gaugeSegments .range dr ts,
              seg.start ≤ p → p ≤ seg.stop → seg.label = lab) := by
        intro p lab hp
        rcases hp with ⟨rfl, rfl⟩ | ⟨rfl, rfl⟩ | ⟨rfl, rfl⟩ | ⟨rfl, rfl⟩ |
          ⟨rfl, rfl⟩ <;>
          refine ⟨?_, ?_⟩ <;>
          simp [gaugeSegments, generateRangeBasedSegments] <;> norm_num
      refine key _ _ ?_
      simp only [gaugePercent, calculateRangeBasedPercent, calculateSeverity,
        severityLabel]
      rcases lt_or_le v ts.criticalMin with r1 | r1
      · simp only [if_pos r1, if_pos (Or.inl r1)]
        norm_num
      · rcases lt_or_le v ts.normalMin with r2 | r2
        · have hnc : ¬(v < ts.criticalMin ∨ ts.criticalMax < v) := by
            rintro (h | h) <;> linarith
          have hns : ¬(v ≥ ts.normalMin ∧ v ≤ ts.normalMax) := by
            rintro ⟨a, _⟩
            exact absurd a (not_le.mpr r2)
          simp only [if_neg (not_lt.mpr r1), if_pos r2, if_neg hnc,
            if_neg hns]
          norm_num
        · rcases le_or_lt v ts.normalMax with r3 | r3
          · have hnc : ¬(v < ts.criticalMin ∨ ts.criticalMax < v) := by
              rintro (h | h) <;> linarith
            simp only [if_neg (not_lt.mpr r1), if_neg (not_lt.mpr r2),
              if_pos r3, if_neg hnc, if_pos (⟨r2, r3⟩ : _ ∧ _)]
            norm_num
          · rcases le_or_lt v ts.criticalMax with r4 | r4
            · have hnc : ¬(v < ts.criticalMin ∨ ts.criticalMax < v) := by
                rintro (h | h) <;> linarith
              have hns : ¬(v ≥ ts.normalMin ∧ v ≤ ts.normalMax) := by
                rintro ⟨_, b⟩
                exact absurd b (not_le.mpr r3)
              simp only [if_neg (not_lt.mpr r1), if_neg (not_lt.mpr r2),
                if_neg (not_le.mpr r3), if_pos r4, if_neg hnc, if_neg hns]
              norm_num
            · simp only [if_neg (not_lt.mpr r1), if_neg (not_lt.mpr r2),
                if_neg (not_le.mpr r3), if_neg (not_le.mpr r4),
                if_pos (Or.inr r4)]
              norm_num

/-- Witness for `classifier_segment_agreement`: a concrete valid range
ThresholdSet and in-band value. -/
theorem classifier_segment_agreement_witness :
    validFor .range ⟨10, 20, 5, 25, 0, 30⟩ ∧
    ∃ seg ∈ gaugeSegments .range ⟨0, 100⟩ ⟨10, 20, 5, 25, 0, 30⟩,
      seg.start ≤ gaugePercent .range 15 ⟨10, 20, 5, 25, 0, 30⟩ ⟨0, 100⟩ ∧
      gaugePercent .range 15 ⟨10, 20, 5, 25, 0, 30⟩ ⟨0, 100⟩ ≤ seg.stop ∧
      seg.label = severityLabel
        (calculateSeverity 15 10 20 5 25 0 30 .range) := by
  have hv : validFor .range (⟨10, 20, 5, 25, 0, 30⟩ : ThresholdSet) := by
    simp only [validFor]; norm_num
  exact ⟨hv,
    (classifier_segment_agreement .range ⟨10, 20, 5, 25, 0, 30⟩
      ⟨0, 100⟩ 15 hv).1⟩

/-- `Telemetry` (telemetry service payload): one numeric field per metric.
`dailyHoneyGainG` is optional in the source (`telemetry.dailyHoneyGainG ?? 0`).
The `recordedAt` timestamp only feeds the day/night caption of the sound
gauge, a formatted display string elided from this embedding. -/
structure Telemetry where
  temperature : ℚ
  humidity : ℚ
  weightKg : ℚ
  soundDb : ℚ
  co2Ppm : ℚ
  dailyHoneyGainG : Option ℚ
  swarmRisk : ℚ
  batteryPercent : ℚ

/-- `Thresholds` (thresholds service): per-metric boundary sextuplets plus
the three weight-specific scalars. -/
structure Thresholds where
  tempNormalMin : ℚ
  tempNormalMax : ℚ
  tempWarningMin : ℚ
  tempWarningMax : ℚ
  tempCriticalMin : ℚ
  tempCriticalMax : ℚ
  humidityNormalMin : ℚ
  humidityNormalMax : ℚ
  humidityWarningMin : ℚ
  humidityWarningMax : ℚ
  humidityCriticalMin : ℚ
  humidityCriticalMax : ℚ
  soundNormalMin : ℚ
  soundNormalMax : ℚ
  soundWarningMin : ℚ
  soundWarningMax : ℚ
  soundCriticalMin : ℚ
  soundCriticalMax : ℚ
  co2NormalMin : ℚ
  co2NormalMax : ℚ
  co2WarningMin : ℚ
  co2WarningMax : ℚ
  co2CriticalMin : ℚ
  co2CriticalMax : ℚ
  swarmRiskNormalMin : ℚ
  swarmRiskNormalMax : ℚ
  swarmRiskWarningMin : ℚ
  swarmRiskWarningMax : ℚ
  swarmRiskCriticalMin : ℚ
  swarmRiskCriticalMax : ℚ
  batteryNormalMin : ℚ
  batteryNormalMax : ℚ
  batteryWarningMin : ℚ
  batteryWarningMax : ℚ
  batteryCriticalMin : ℚ
  batteryCriticalMax : ℚ
  honeyGainNormalMin : ℚ
  honeyGainNormalMax : ℚ
  honeyGainWarningMin : ℚ
  honeyGainWarningMax : ℚ
  honeyGainCriticalMin : ℚ
  honeyGainCriticalMax : ℚ
  weightCriticalRobberyDropKg : ℚ
  weightWarningDailyLossG : ℚ
  weightNormalDailyGainMinG : ℚ

/-- The dashboard `Metric` view model.  The formatted display strings
(`label`, `unit`, `value`, `scale`, `ranges`) are presentation output of
number-to-string formatting and are elided; the numeric/severity/segment
fields are kept. -/
structure Metric where
  id : String
  percent : ℚ
  severity : Severity
  segments : List GaugeSegment

/-- `transformTelemetryToMetrics` of `telemetry-transform.ts`
(lines 303–709), restricted to the retained `Metric` fields: the same
per-metric percent, severity and segment computations, producing the same
eight entries in the same order. -/
def transformTelemetryToMetrics (telemetry : Telemetry)
    (thresholds : Thresholds) : List Metric :=
  let tempPercent := calculateRangeBasedPercent telemetry.temperature
    ⟨thresholds.tempNormalMin, thresholds.tempNormalMax,
      thresholds.tempCriticalMin, thresholds.tempCriticalMax⟩ ⟨18, 40⟩
  let tempSeverity := calculateSeverity telemetry.temperature
    thresholds.tempNormalMin thresholds.tempNormalMax
    thresholds.tempWarningMin thresholds.tempWarningMax
    thresholds.tempCriticalMin thresholds.tempCriticalMax .range
  let humidityPercent := calculateRangeBasedPercent telemetry.humidity
    ⟨thresholds.humidityNormalMin, thresholds.humidityNormalMax,
      thresholds.humidityCriticalMin, thresholds.humidityCriticalMax⟩ ⟨0, 100⟩
  let humiditySeverity := calculateSeverity telemetry.humidity
    thresholds.humidityNormalMin thresholds.humidityNormalMax
    thresholds.humidityWarningMin thresholds.humidityWarningMax
    thresholds.humidityCriticalMin thresholds.humidityCriticalMax .range
  let weightPercent := calculateRangeBasedPercent telemetry.weightKg
    ⟨28, 52, 24, 56⟩ ⟨20, 60⟩
  -- source: `const weightSeverity: Severity = 'safe';`
  -- (weight severity based on drop rate, not absolute value)
  let weightSeverity : Severity := .safe
  let soundPercent := calculateRangeBasedPercent telemetry.soundDb
    ⟨thresholds.soundNormalMin, thresholds.soundNormalMax,
      thresholds.soundCriticalMin, thresholds.soundCriticalMax⟩ ⟨0, 100⟩
  let soundSeverity := calculateSeverity telemetry.soundDb
    thresholds.soundNormalMin thresholds.soundNormalMax
    thresholds.soundWarningMin thresholds.soundWarningMax
    thresholds.soundCriticalMin thresholds.soundCriticalMax .range
  let co2Percent := calculateSimplePercent telemetry.co2Ppm
    ⟨thresholds.co2NormalMin, thresholds.co2NormalMax,
      thresholds.co2WarningMin, thresholds.co2WarningMax⟩ .ascending
    ⟨400, 4000⟩
  let co2Severity := calculateSeverity telemetry.co2Ppm
    thresholds.co2NormalMin thresholds.co2NormalMax
    thresholds.co2WarningMin thresholds.co2WarningMax
    thresholds.co2CriticalMin thresholds.co2CriticalMax .ascending
  let honeyGain := telemetry.dailyHoneyGainG.getD 0
  let honeyPercent := calculateSimplePercent honeyGain
    ⟨thresholds.honeyGainNormalMin, thresholds.honeyGainNormalMax,
      thresholds.honeyGainWarningMin, thresholds.honeyGainWarningMax⟩
    .inverted ⟨-500, 800⟩
  let honeySeverity := calculateSeverity honeyGain
    thresholds.honeyGainNormalMin thresholds.honeyGainNormalMax
    thresholds.honeyGainWarningMin thresholds.honeyGainWarningMax
    thresholds.honeyGainCriticalMin thresholds.honeyGainCriticalMax .inverted
  let swarmPercent := calculateSimplePercent telemetry.swarmRisk
    ⟨thresholds.swarmRiskNormalMin, thresholds.swarmRiskNormalMax,
      thresholds.swarmRiskWarningMin, thresholds.swarmRiskWarningMax⟩
    .ascending ⟨0, 100⟩
  let swarmSeverity := calculateSeverity telemetry.swarmRisk
    thresholds.swarmRiskNormalMin thresholds.swarmRiskNormalMax
    thresholds.swarmRiskWarningMin thresholds.swarmRiskWarningMax
    thresholds.swarmRiskCriticalMin thresholds.swarmRiskCriticalMax .ascending
  let batteryPercent := calculateSimplePercent telemetry.batteryPercent
    ⟨thresholds.batteryNormalMin, thresholds.batteryNormalMax,
      thresholds.batteryWarningMin, thresholds.batteryWarningMax⟩
    .inverted ⟨0, 100⟩
  let batterySeverity := calculateSeverity telemetry.batteryPercent
    thresholds.batteryNormalMin thresholds.batteryNormalMax
    thresholds.batteryWarningMin thresholds.batteryWarningMax
    thresholds.batteryCriticalMin thresholds.batteryCriticalMax .inverted
  let tempSegments := generateRangeBasedSegments ⟨18, 40⟩
    ⟨thresholds.tempNormalMin, thresholds.tempNormalMax,
      thresholds.tempWarningMin, thresholds.tempWarningMax,
      thresholds.tempCriticalMin, thresholds.tempCriticalMax⟩
  let humiditySegments := generateRangeBasedSegments ⟨0, 100⟩
    ⟨thresholds.humidityNormalMin, thresholds.humidityNormalMax,
      thresholds.humidityWarningMin, thresholds.humidityWarningMax,
      thresholds.humidityCriticalMin, thresholds.humidityCriticalMax⟩
  let soundSegments := generateRangeBasedSegments ⟨0, 100⟩
    ⟨thresholds.soundNormalMin, thresholds.soundNormalMax,
      thresholds.soundWarningMin, thresholds.soundWarningMax,
      thresholds.soundCriticalMin, thresholds.soundCriticalMax⟩
  let co2Segments := generateSimpleSegments ⟨400, 4000⟩
    ⟨thresholds.co2NormalMin, thresholds.co2NormalMax,
      thresholds.co2WarningMin, thresholds.co2WarningMax,
      thresholds.co2CriticalMin, thresholds.co2CriticalMax⟩ .ascending
  let swarmSegments := generateSimpleSegments ⟨0, 100⟩
    ⟨thresholds.swarmRiskNormalMin, thresholds.swarmRiskNormalMax,
      thresholds.swarmRiskWarningMin, thresholds.swarmRiskWarningMax,
      thresholds.swarmRiskCriticalMin, thresholds.swarmRiskCriticalMax⟩
    .ascending
  let honeySegments := generateSimpleSegments ⟨-500, 800⟩
    ⟨thresholds.honeyGainNormalMin, thresholds.honeyGainNormalMax,
      thresholds.honeyGainWarningMin, thresholds.honeyGainWarningMax,
      thresholds.honeyGainCriticalMin, thresholds.honeyGainCriticalMax⟩
    .inverted
  let batterySegments := generateSimpleSegments ⟨0, 100⟩
    ⟨thresholds.batteryNormalMin, thresholds.batteryNormalMax,
      thresholds.batteryWarningMin, thresholds.batteryWarningMax,
      thresholds.batteryCriticalMin, thresholds.batteryCriticalMax⟩
    .inverted
  [ { id := "temp", percent := tempPercent, severity := tempSeverity,
      segments := tempSegments },
    { id := "humidity", percent := humidityPercent,
      severity := humiditySeverity, segments := humiditySegments },
    { id := "weight", percent := weightPercent, severity := weightSeverity,
      segments := generateRangeBasedSegments ⟨20, 60⟩
        ⟨28, 52, 24, 56, 24, 56⟩ },
    { id := "activity", percent := soundPercent, severity := soundSeverity,
      segments := soundSegments },
    { id := "co2", percent := co2Percent, severity := co2Severity,
      segments := co2Segments },
    { id := "honey", percent := honeyPercent, severity := honeySeverity,
      segments := honeySegments },
    { id := "swarm", percent := swarmPercent, severity := swarmSeverity,
      segments := swarmSegments },
    { id := "battery", percent := batteryPercent,
      severity := batterySeverity, segments := batterySegments } ]

/-- C9: for every telemetry sample and every threshold set, the weight
entry of `transformTelemetryToMetrics` carries severity `safe` — neither
the weight value nor any threshold influences it. -/
theorem weight_severity_always_safe (telemetry : Telemetry)
    (thresholds : Thresholds) :
    ((transformTelemetryToMetrics telemetry thresholds).find?
        (fun m => m.id == "weight")).map Metric.severity =
      some Severity.safe := by
  rfl

end TelemetryTransform

namespace MetricsConfig

/-- The metric identifiers configured in `METRICS_CONFIG` (its record keys).
Lookup in the source is by id string with a possible `undefined` miss; the
claims quantify over configured metrics only, so lookup is total here. -/
inductive MetricId where
  | temp
  | humidity
  | activity
  | co2
  | swarm
  | battery
  | honey
  | weight
deriving DecidableEq, Repr

/-- `MetricConfig` of `metrics.config.ts`.  `warningExtension` is an
optional field (`warningExtension?: number`). -/
structure MetricConfig where
  id : String
  label : String
  unit : String
  type : MetricType
  displayMin : ℚ
  displayMax : ℚ
  scaleLabels : String × String × String
  warningSpan : ℚ
  warningExtension : Option ℚ
  allowManualThresholds : Bool

/-- `METRICS_CONFIG` of `metrics.config.ts` (lines 60–184). -/
def METRICS_CONFIG : MetricId → MetricConfig
  | .temp =>
      { id := "temp", label := "Hive Temperature", unit := "°C",
        type := .range, displayMin := 15, displayMax := 45,
        scaleLabels := ("15°", "TCM", "45°"), warningSpan := 0,
        warningExtension := some 5, allowManualThresholds := false }
  | .humidity =>
      { id := "humidity", label := "Humidity", unit := "%",
        type := .range, displayMin := 0, displayMax := 100,
        scaleLabels := ("0%", "Hive", "100%"), warningSpan := 0,
        warningExtension := some 10, allowManualThresholds := false }
  | .activity =>
      { id := "activity", label := "Bee Activity", unit := "dB",
        type := .range, displayMin := 0, displayMax := 100,
        scaleLabels := ("0 dB", "Activity", "100 dB"), warningSpan := 0,
        warningExtension := some 10, allowManualThresholds := false }
  | .co2 =>
      { id := "co2", label := "CO₂", unit := "ppm",
        type := .ascending, displayMin := 400, displayMax := 4000,
        scaleLabels := ("400", "Vent", "4000"), warningSpan := 500,
        warningExtension := none, allowManualThresholds := false }
  | .swarm =>
      { id := "swarm", label := "Swarm Risk", unit := "",
        type := .ascending, displayMin := 0, displayMax := 100,
        scaleLabels := ("0", "Score", "100"), warningSpan := 10,
        warningExtension := none, allowManualThresholds := false }
  | .battery =>
      { id := "battery", label := "Battery", unit := "%",
        type := .inverted, displayMin := 0, displayMax := 100,
        scaleLabels := ("0%", "Charge", "100%"), warningSpan := 40,
        warningExtension := none, allowManualThresholds := false }
  | .honey =>
      { id := "honey", label := "Daily Honey Gain", unit := "g",
        type := .inverted, displayMin := -500, displayMax := 1000,
        scaleLabels := ("-500g", "Δ 24h", "+1000g"), warningSpan := 250,
        warningExtension := none, allowManualThresholds := false }
  | .weight =>
      { id := "weight", label := "Weight", unit := "kg",
        type := .range, displayMin := 20, displayMax := 60,
        scaleLabels := ("20 kg", "Total", "60 kg"), warningSpan := 0,
        warningExtension := some 4, allowManualThresholds := true }

/-- The four derived boundaries returned by the auto-adjust functions. -/
structure AdjustedThresholds where
  warningMin : ℚ
  warningMax : ℚ
  criticalMin : ℚ
  criticalMax : ℚ
deriving DecidableEq, Repr

/-- `autoAdjustAscendingThresholds` of `metrics.config.ts`
(lines 229–246); the `throw` on a non-ascending metric is `none`. -/
def autoAdjustAscendingThresholds (metricId : MetricId) (normalMax
    displayMax : ℚ) : Option AdjustedThresholds :=
  let config := METRICS_CONFIG metricId
  if config.type ≠ .ascending then none
  else
    let warningSpan := config.warningSpan
    let warningMin := normalMax
    let warningMax := min displayMax (normalMax + warningSpan)
    let criticalMin := warningMax
    let criticalMax := displayMax
    some ⟨warningMin, warningMax, criticalMin, criticalMax⟩

/-- `autoAdjustInvertedThresholds` of `metrics.config.ts`
(lines 252–269). -/
def autoAdjustInvertedThresholds (metricId : MetricId) (normalMin
    displayMin : ℚ) : Option AdjustedThresholds :=
  let config := METRICS_CONFIG metricId
  if config.type ≠ .inverted then none
  else
    let warningSpan := config.warningSpan
    let warningMax := normalMin
    let warningMin := max displayMin (normalMin - warningSpan)
    let criticalMax := warningMin
    let criticalMin := displayMin
    some ⟨warningMin, warningMax, criticalMin, criticalMax⟩

/-- The effective warning extension of a range metric:
`config.autoAdjust.warningExtension || 10` reads `10` when the field is
absent or zero (JS falsiness). -/
def rangeExtension (config : MetricConfig) : ℚ :=
  match config.warningExtension with
  | none => 10
  | some e => if e = 0 then 10 else e

/-- `autoAdjustRangeThresholds` of `metrics.config.ts` (lines 275–298). -/
def autoAdjustRangeThresholds (metricId : MetricId) (normalMin normalMax
    displayMin displayMax : ℚ) : Option AdjustedThresholds :=
  let config := METRICS_CONFIG metricId
  if config.type ≠ .range then none
  else
    let extension := rangeExtension config
    let warningMin := max displayMin (normalMin - extension)
    let warningMax := min displayMax (normalMax + extension)
    let criticalMin := warningMin
    let criticalMax := warningMax
    some ⟨warningMin, warningMax, criticalMin, criticalMax⟩

/-- C6: on every ascending metric, auto-adjustment returns
`warningMin = normalMax`, `warningMax = min(displayMax, normalMax +
warningSpan)`, `criticalMin = warningMax`, `criticalMax = displayMax`. -/
theorem autoAdjustAscending_spec (metricId : MetricId)
    (normalMax displayMax : ℚ)
    (h : (METRICS_CONFIG metricId).type = .ascending) :
    autoAdjustAscendingThresholds metricId normalMax displayMax =
      some ⟨normalMax,
        min displayMax (normalMax + (METRICS_CONFIG metricId).warningSpan),
        min displayMax (normalMax + (METRICS_CONFIG metricId).warningSpan),
        displayMax⟩ := by
  simp [autoAdjustAscendingThresholds, h]

/-- Witness for `autoAdjustAscending_spec`: the spec's CO2 scenario —
edited normal max 1800 with display max 4000 and warning span 500 yields
warning = [1800, 2300] and critical = [2300, 4000]. -/
theorem autoAdjustAscending_spec_witness :
    (METRICS_CONFIG .co2).type = .ascending ∧
    autoAdjustAscendingThresholds .co2 1800 4000 =
      some ⟨1800, 2300, 2300, 4000⟩ := by
  refine ⟨rfl, ?_⟩
  rw [autoAdjustAscending_spec .co2 1800 4000 rfl]
  norm_num [METRICS_CONFIG]

/-- `SEVERITY_COLORS` of `metrics.config.ts` (lines 50–54). -/
structure SeverityColors where
  normal : String
  warning : String
  critical : String

def SEVERITY_COLORS : SeverityColors :=
  { normal := "#22c55e", warning := "#eab308", critical := "#ef4444" }

/-- `ValidationError` of `metrics.config.ts`: a field-tagged message. -/
structure ValidationError where
  field : String
  message : String
deriving DecidableEq, Repr

/-- `ValidationResult` of `metrics.config.ts`. -/
structure ValidationResult where
  valid : Bool
  errors : List ValidationError
deriving DecidableEq, Repr

/-- The minimum-span expression computed identically inside both
validators: `config?.unit === '%' || config?.unit === '' ? 5 : 1`. -/
def minSpanFor (config : MetricConfig) : ℚ :=
  if config.unit = "%" ∨ config.unit = "" then 5 else 1

/-- The unit shown in the span message: `config?.unit || 'units'`
(an empty unit string is falsy in JS). -/
def unitStrFor (config : MetricConfig) : String :=
  if config.unit = "" then "units" else config.unit

/-- `validateThresholds` of the extended `metrics.config.ts` variant
(lines 318–422): basic range checks, display-range check, type-specific
ordering checks, minimum-span check; `valid` iff no error was pushed. -/
def validateThresholds (metricId : MetricId)
    (normalMin normalMax warningMin warningMax criticalMin criticalMax
      displayMin displayMax : ℚ) : ValidationResult :=
  let config := METRICS_CONFIG metricId
  let basicErrors : List ValidationError :=
    (if normalMin > normalMax then
      [⟨"normal", "Normal minimum cannot be greater than maximum"⟩]
     else []) ++
    (if warningMin > warningMax then
      [⟨"warning", "Warning minimum cannot be greater than maximum"⟩]
     else []) ++
    (if criticalMin > criticalMax then
      [⟨"critical", "Critical minimum cannot be greater than maximum"⟩]
     else []) ++
    (if normalMin < displayMin ∨ normalMax > displayMax then
      [⟨"normal", s!"Normal range must be within {displayMin} - {displayMax}"⟩]
     else [])
  let typeErrors : List ValidationError :=
    match config.type with
    | .ascending =>
        (if warningMin < normalMax then
          [⟨"warning", "Warning zone must start at or after normal maximum"⟩]
         else []) ++
        (if criticalMin < warningMax then
          [⟨"critical", "Critical zone must start at or after warning maximum"⟩]
         else [])
    | .inverted =>
        (if warningMax > normalMin then
          [⟨"warning", "Warning zone must end at or before normal minimum"⟩]
         else []) ++
        (if criticalMax > warningMin then
          [⟨"critical", "Critical zone must end at or before warning minimum"⟩]
         else [])
    | .range =>
        (if warningMin > normalMin ∨ warningMax < normalMax then
          [⟨"warning", "Warning zone must encompass the entire normal range"⟩]
         else []) ++
        (if criticalMin > warningMin ∨ criticalMax < warningMax then
          [⟨"critical", "Critical boundaries must be at or beyond warning zone"⟩]
         else [])
  let spanErrors : List ValidationError :=
    if normalMax - normalMin < minSpanFor config then
      [⟨"normal", s!"Normal range must be at least {minSpanFor config} {unitStrFor config} wide"⟩]
    else []
  let errors := basicErrors ++ typeErrors ++ spanErrors
  ⟨errors.length == 0, errors⟩

/-- `validateNormalRange` of the extended `metrics.config.ts` variant
(lines 427–470). -/
def validateNormalRange (metricId : MetricId)
    (normalMin normalMax displayMin displayMax : ℚ) : ValidationResult :=
  let config := METRICS_CONFIG metricId
  let errors : List ValidationError :=
    (if normalMin > normalMax then
      [⟨"normal", "Minimum cannot be greater than maximum"⟩]
     else []) ++
    (if normalMin < displayMin then
      [⟨"normal", s!"Minimum cannot be less than {displayMin}"⟩]
     else []) ++
    (if normalMax > displayMax then
      [⟨"normal", s!"Maximum cannot be greater than {displayMax}"⟩]
     else []) ++
    (if normalMax - normalMin < minSpanFor config then
      [⟨"normal", s!"Range must be at least {minSpanFor config} {unitStrFor config} wide"⟩]
     else [])
  ⟨errors.length == 0, errors⟩

/-- The per-topology auto-adjustment entry point: the configuration UI
invokes the adjust function matching the metric's configured topology. -/
def autoAdjustForType (metricId : MetricId)
    (normalMin normalMax displayMin displayMax : ℚ) :
    Option AdjustedThresholds :=
  match (METRICS_CONFIG metricId).type with
  | .ascending => autoAdjustAscendingThresholds metricId normalMax displayMax
  | .inverted => autoAdjustInvertedThresholds metricId normalMin displayMin
  | .range =>
      autoAdjustRangeThresholds metricId normalMin normalMax displayMin
        displayMax

/-- `validateNormalRange` is valid exactly when its four checks pass. -/
theorem validateNormalRange_valid_iff (metricId : MetricId)
    (normalMin normalMax displayMin displayMax : ℚ) :
    (validateNormalRange metricId normalMin normalMax displayMin
        displayMax).valid = true ↔
      normalMin ≤ normalMax ∧ displayMin ≤ normalMin ∧
      normalMax ≤ displayMax ∧
      minSpanFor (METRICS_CONFIG metricId) ≤ normalMax - normalMin := by
  simp only [validateNormalRange, beq_iff_eq, List.length_eq_zero,
    List.append_eq_nil, ite_eq_right_iff, List.cons_ne_nil, imp_false,
    not_lt]
  tauto

/-- `validateThresholds` is valid exactly when every check passes,
the type-specific checks being those of the metric's topology. -/
theorem validateThresholds_valid_iff (metricId : MetricId)
    (normalMin normalMax warningMin warningMax criticalMin criticalMax
      displayMin displayMax : ℚ) :
    (validateThresholds metricId normalMin normalMax warningMin warningMax
        criticalMin criticalMax displayMin displayMax).valid = true ↔
      normalMin ≤ normalMax ∧ warningMin ≤ warningMax ∧
      criticalMin ≤ criticalMax ∧
      (displayMin ≤ normalMin ∧ normalMax ≤ displayMax) ∧
      (match (METRICS_CONFIG metricId).type with
       | .ascending => normalMax ≤ warningMin ∧ warningMax ≤ criticalMin
       | .inverted => warningMax ≤ normalMin ∧ criticalMax ≤ warningMin
       | .range =>
           (warningMin ≤ normalMin ∧ normalMax ≤ warningMax) ∧
           (criticalMin ≤ warningMin ∧ warningMax ≤ criticalMax)) ∧
      minSpanFor (METRICS_CONFIG metricId) ≤ normalMax - normalMin := by
  cases hty : (METRICS_CONFIG metricId).type <;>
    simp only [validateThresholds, hty, beq_iff_eq, List.length_eq_zero,
      List.append_eq_nil, ite_eq_right_iff, List.cons_ne_nil, imp_false,
      not_lt, not_or] <;>
    tauto

/-- Every configured warning span is nonnegative. -/
theorem warningSpan_nonneg (metricId : MetricId) :
    0 ≤ (METRICS_CONFIG metricId).warningSpan := by
  cases metricId <;> norm_num [METRICS_CONFIG]

/-- Every configured effective range extension is nonnegative. -/
theorem rangeExtension_nonneg (metricId : MetricId) :
    0 ≤ rangeExtension (METRICS_CONFIG metricId) := by
  cases metricId <;> norm_num [METRICS_CONFIG, rangeExtension]

/-- C7: auto-adjustment round trip — for every configured metric, any
edited normal range accepted by `validateNormalRange` yields, through the
topology's auto-adjustment, a ThresholdSet accepted by the full
`validateThresholds`. -/
theorem autoAdjust_roundtrip (metricId : MetricId)
    (normalMin normalMax displayMin displayMax : ℚ)
    (adj : AdjustedThresholds)
    (hval : (validateNormalRange metricId normalMin normalMax displayMin
        displayMax).valid = true)
    (hadj : autoAdjustForType metricId normalMin normalMax displayMin
        displayMax = some adj) :
    (validateThresholds metricId normalMin normalMax adj.warningMin
        adj.warningMax adj.criticalMin adj.criticalMax displayMin
        displayMax).valid = true := by
  rw [validateNormalRange_valid_iff] at hval
  obtain ⟨h1, h2, h3, h4⟩ := hval
  rw [validateThresholds_valid_iff]
  cases hty : (METRICS_CONFIG metricId).type with
  | ascending =>
      have hspan := warningSpan_nonneg metricId
      simp only [autoAdjustForType, hty, autoAdjustAscendingThresholds,
        ne_eq, not_true_eq_false, if_false, Option.some_inj] at hadj
      subst hadj
      simp only [hty]
      refine ⟨h1, ?_, ?_, ⟨h2, h3⟩, ⟨le_refl _, le_refl _⟩, h4⟩
      · exact le_min h3 (by linarith)
      · exact min_le_left _ _
  | inverted =>
      have hspan := warningSpan_nonneg metricId
      simp only [autoAdjustForType, hty, autoAdjustInvertedThresholds,
        ne_eq, not_true_eq_false, if_false, Option.some_inj] at hadj
      subst hadj
      simp only [hty]
      refine ⟨h1, ?_, ?_, ⟨h2, h3⟩, ⟨le_refl _, le_refl _⟩, h4⟩
      · exact max_le h2 (by linarith)
      · exact le_max_left _ _
  | range =>
      have hext := rangeExtension_nonneg metricId
      simp only [autoAdjustForType, hty, autoAdjustRangeThresholds,
        ne_eq, not_true_eq_false, if_false, Option.some_inj] at hadj
      subst hadj
      simp only [hty]
      have hwlo : max displayMin
          (normalMin - rangeExtension (METRICS_CONFIG metricId)) ≤
          normalMin := max_le h2 (by linarith)
      have hwhi : normalMax ≤ min displayMax
          (normalMax + rangeExtension (METRICS_CONFIG metricId)) :=
        le_min h3 (by linarith)
      have hww : max displayMin
          (normalMin - rangeExtension (METRICS_CONFIG metricId)) ≤
          min displayMax
            (normalMax + rangeExtension (METRICS_CONFIG metricId)) :=
        hwlo.trans (h1.trans hwhi)
      exact ⟨h1, hww, hww, ⟨h2, h3⟩, ⟨⟨hwlo, hwhi⟩, le_refl _, le_refl _⟩, h4⟩

/-- Witness for `autoAdjust_roundtrip`: the CO2 scenario — edited
normal = [400, 1800] over display [400, 4000] validates, auto-adjusts to
warning = [1800, 2300], critical = [2300, 4000], and the adjusted set
passes full validation. -/
theorem autoAdjust_roundtrip_witness :
    (validateNormalRange .co2 400 1800 400 4000).valid = true ∧
    autoAdjustForType .co2 400 1800 400 4000 =
      some ⟨1800, 2300, 2300, 4000⟩ ∧
    (validateThresholds .co2 400 1800 1800 2300 2300 4000 400
        4000).valid = true := by
  have hval : (validateNormalRange .co2 400 1800 400 4000).valid = true := by
    rw [validateNormalRange_valid_iff]
    norm_num [METRICS_CONFIG, minSpanFor]
    split_ifs <;> norm_num
  have hadj : autoAdjustForType .co2 400 1800 400 4000 =
      some ⟨1800, 2300, 2300, 4000⟩ := by
    simp only [autoAdjustForType, METRICS_CONFIG,
      autoAdjustAscendingThresholds]
    norm_num
  exact ⟨hval, hadj,
    autoAdjust_roundtrip .co2 400 1800 400 4000 ⟨1800, 2300, 2300, 4000⟩
      hval hadj⟩

end MetricsConfig

namespace TelemetryTransformAlt

open MetricsConfig (SEVERITY_COLORS)

/-- `calculatePercent` of the config-driven transform variant (identical
to the active one): clamp then linear map to 0–100. -/
def calculatePercent (value mn mx : ℚ) : ℚ :=
  let clamped := max mn (min mx value)
  (clamped - mn) / (mx - mn) * 100

/-- `valueToPercent` of the config-driven transform variant: the same
linear map without clamping, used for the segment split points. -/
def valueToPercent (value displayMin displayMax : ℚ) : ℚ :=
  (value - displayMin) / (displayMax - displayMin) * 100

/-- `generateAscendingSegments` of the config-driven transform variant
(the `segments()` implementation that splits at the thresholds):
safe up to `pct(normalMax)`, warning up to `pct(warningMax)`, critical up
to 100. -/
def generateAscendingSegments (displayMin displayMax normalMax
    warningMax : ℚ) : List GaugeSegment :=
  let normalEnd := valueToPercent normalMax displayMin displayMax
  let warningEnd := valueToPercent warningMax displayMin displayMax
  [ { start := 0, stop := normalEnd, color := SEVERITY_COLORS.normal,
      label := "Normal" },
    { start := normalEnd, stop := warningEnd,
      color := SEVERITY_COLORS.warning, label := "Warning" },
    { start := warningEnd, stop := 100, color := SEVERITY_COLORS.critical,
      label := "Critical" } ]

/-- On arguments inside the display range the clamped and unclamped
linear maps agree. -/
theorem calculatePercent_eq_valueToPercent (v mn mx : ℚ)
    (hlo : mn ≤ v) (hhi : v ≤ mx) :
    calculatePercent v mn mx = valueToPercent v mn mx := by
  unfold calculatePercent valueToPercent
  rw [min_eq_right hhi, max_eq_right hlo]

/-- C4: for thresholds ordered within the display range,
`generateAscendingSegments` returns exactly three segments labelled
safe, warning, critical in that order, split at `pct(normalMax)` and
`pct(warningMax)` where `pct` is the same clamped linear map used for the
value position, and the split points are ordered in `[0, 100]`, so the
segments chain contiguously from 0 to 100 with no gaps. -/
theorem ascending_segments_spec (displayMin displayMax normalMax
    warningMax : ℚ) (hd : displayMin < displayMax)
    (h1 : displayMin ≤ normalMax) (h2 : normalMax ≤ warningMax)
    (h3 : warningMax ≤ displayMax) :
    generateAscendingSegments displayMin displayMax normalMax warningMax =
      [ { start := 0,
          stop := calculatePercent normalMax displayMin displayMax,
          color := SEVERITY_COLORS.normal, label := severityLabel .safe },
        { start := calculatePercent normalMax displayMin displayMax,
          stop := calculatePercent warningMax displayMin displayMax,
          color := SEVERITY_COLORS.warning,
          label := severityLabel .warning },
        { start := calculatePercent warningMax displayMin displayMax,
          stop := 100, color := SEVERITY_COLORS.critical,
          label := severityLabel .critical } ] ∧
    0 ≤ calculatePercent normalMax displayMin displayMax ∧
    calculatePercent normalMax displayMin displayMax ≤
      calculatePercent warningMax displayMin displayMax ∧
    calculatePercent warningMax displayMin displayMax ≤ 100 := by
  have hd' : (0 : ℚ) < displayMax - displayMin := by linarith
  have e1 : calculatePercent normalMax displayMin displayMax =
      valueToPercent normalMax displayMin displayMax :=
    calculatePercent_eq_valueToPercent _ _ _ h1 (h2.trans h3)
  have e2 : calculatePercent warningMax displayMin displayMax =
      valueToPercent warningMax displayMin displayMax :=
    calculatePercent_eq_valueToPercent _ _ _ (h1.trans h2) h3
  refine ⟨?_, ?_, ?_, ?_⟩
  · rw [e1, e2]
    rfl
  · rw [e1]
    unfold valueToPercent
    have : (0 : ℚ) ≤ (normalMax - displayMin) / (displayMax - displayMin) :=
      div_nonneg (by linarith) hd'.le
    linarith
  · rw [e1, e2]
    unfold valueToPercent
    have := (div_le_div_iff_of_pos_right hd').mpr
      (by linarith : normalMax - displayMin ≤ warningMax - displayMin)
    linarith
  · rw [e2]
    unfold valueToPercent
    have : (warningMax - displayMin) / (displayMax - displayMin) ≤ 1 :=
      (div_le_one hd').mpr (by linarith)
    linarith

/-- Witness for `ascending_segments_spec` at a concrete configuration:
display range [0, 100], normal max 40, warning max 70 give segments
[0, 40], [40, 70], [70, 100]. -/
theorem ascending_segments_spec_witness :
    ((0 : ℚ) < 100 ∧ (0 : ℚ) ≤ 40 ∧ (40 : ℚ) ≤ 70 ∧ (70 : ℚ) ≤ 100) ∧
    generateAscendingSegments 0 100 40 70 =
      [ { start := 0, stop := calculatePercent 40 0 100,
          color := SEVERITY_COLORS.normal, label := severityLabel .safe },
        { start := calculatePercent 40 0 100,
          stop := calculatePercent 70 0 100,
          color := SEVERITY_COLORS.warning,
          label := severityLabel .warning },
        { start := calculatePercent 70 0 100, stop := 100,
          color := SEVERITY_COLORS.critical,
          label := severityLabel .critical } ] ∧
    calculatePercent 40 0 100 = 40 ∧ calculatePercent 70 0 100 = 70 := by
  refine ⟨by norm_num, ?_, by norm_num [calculatePercent],
    by norm_num [calculatePercent]⟩
  exact (ascending_segments_spec 0 100 40 70 (by norm_num) (by norm_num)
    (by norm_num) (by norm_num)).1

end TelemetryTransformAlt

namespace JSSem

/-- A JS number for the purpose of studying the transform functions on
non-finite inputs: NaN, ±Infinity, or a finite value.  Comparisons and the
NaN/infinity cases of arithmetic follow IEEE-754/JS semantics exactly
(NaN incomparable and absorbing, infinities ordered and absorbing);
finite-by-finite arithmetic is idealized as exact rational arithmetic,
which the properties proved here never depend on. -/
inductive JSNum where
  | nan
  | posInf
  | negInf
  | fin (q : ℚ)
deriving DecidableEq, Repr

/-- JS `<`: false whenever either side is NaN. -/
def jlt : JSNum → JSNum → Bool
  | .nan, _ => false
  | _, .nan => false
  | .negInf, .negInf => false
  | .negInf, _ => true
  | _, .negInf => false
  | .posInf, _ => false
  | _, .posInf => true
  | .fin a, .fin b => a < b

/-- JS `<=`: false whenever either side is NaN. -/
def jle : JSNum → JSNum → Bool
  | .nan, _ => false
  | _, .nan => false
  | .negInf, _ => true
  | _, .negInf => false
  | _, .posInf => true
  | .posInf, _ => false
  | .fin a, .fin b => a ≤ b

/-- JS `Math.min`: NaN if either argument is NaN. -/
def jmin (a b : JSNum) : JSNum :=
  if a = .nan ∨ b = .nan then .nan else if jlt a b then a else b

/-- JS `Math.max`: NaN if either argument is NaN. -/
def jmax (a b : JSNum) : JSNum :=
  if a = .nan ∨ b = .nan then .nan else if jlt a b then b else a

/-- JS subtraction on the special values. -/
def jsub : JSNum → JSNum → JSNum
  | .nan, _ => .nan
  | _, .nan => .nan
  | .posInf, .posInf => .nan
  | .posInf, _ => .posInf
  | .negInf, .negInf => .nan
  | .negInf, _ => .negInf
  | .fin _, .posInf => .negInf
  | .fin _, .negInf => .posInf
  | .fin a, .fin b => .fin (a - b)

/-- JS division on the special values. -/
def jdiv : JSNum → JSNum → JSNum
  | .nan, _ => .nan
  | _, .nan => .nan
  | .posInf, .posInf => .nan
  | .posInf, .negInf => .nan
  | .negInf, .posInf => .nan
  | .negInf, .negInf => .nan
  | .posInf, .fin b => if 0 ≤ b then .posInf else .negInf
  | .negInf, .fin b => if 0 ≤ b then .negInf else .posInf
  | .fin _, .posInf => .fin 0
  | .fin _, .negInf => .fin 0
  | .fin a, .fin b =>
      if b = 0 then
        if a = 0 then .nan else if 0 < a then .posInf else .negInf
      else .fin (a / b)

/-- JS multiplication on the special values. -/
def jmul : JSNum → JSNum → JSNum
  | .nan, _ => .nan
  | _, .nan => .nan
  | .posInf, .posInf => .posInf
  | .posInf, .negInf => .negInf
  | .negInf, .posInf => .negInf
  | .negInf, .negInf => .posInf
  | .posInf, .fin b => if b = 0 then .nan else if 0 < b then .posInf else .negInf
  | .fin a, .posInf => if a = 0 then .nan else if 0 < a then .posInf else .negInf
  | .negInf, .fin b => if b = 0 then .nan else if 0 < b then .negInf else .posInf
  | .fin a, .negInf => if a = 0 then .nan else if 0 < a then .negInf else .posInf
  | .fin a, .fin b => .fin (a * b)

/-- `calculateSeverity` of `telemetry-transform.ts` re-embedded verbatim
over JS numbers: the same branch structure with JS comparison semantics.
The source contains no finiteness check or error path; this function is
total. -/
def calculateSeverityJS (value normalMin normalMax warningMin warningMax
    criticalMin criticalMax : JSNum) (metricType : MetricType) : Severity :=
  match metricType with
  | .ascending =>
      if jle value normalMax then .safe
      else if jle value warningMax then .warning
      else .critical
  | .inverted =>
      if jlt value warningMin then .critical
      else if jlt value normalMin then .warning
      else .safe
  | .range =>
      if jlt value criticalMin || jlt criticalMax value then .critical
      else if jle normalMin value && jle value normalMax then .safe
      else .warning

/-- `calculatePercent` of `telemetry-transform.ts` re-embedded verbatim
over JS numbers: clamp via `Math.max`/`Math.min`, then the linear map.
No finiteness check or error path exists in the source. -/
def calculatePercentJS (value mn mx : JSNum) : JSNum :=
  let clamped := jmax mn (jmin mx value)
  jmul (jdiv (jsub clamped mn) (jsub mx mn)) (.fin 100)

/-- C8 counterexample: non-finite inputs are not rejected.  At the
concrete thresholds normal = [0, 10], warning = [10, 20],
critical = [20, 100], a NaN value is silently classified `critical` by the
ascending classifier (every JS comparison with NaN is false), `safe` by
the inverted classifier, and `warning` by the range classifier; +Infinity
is classified `critical` by the ascending classifier; and
`calculatePercent(NaN, 0, 100)` silently evaluates to NaN instead of
raising any error — the source has no validation or error path at all. -/
theorem nonfinite_input_not_rejected :
    calculateSeverityJS .nan (.fin 0) (.fin 10) (.fin 10) (.fin 20)
        (.fin 20) (.fin 100) .ascending = .critical ∧
    calculateSeverityJS .nan (.fin 0) (.fin 10) (.fin 10) (.fin 20)
        (.fin 20) (.fin 100) .inverted = .safe ∧
    calculateSeverityJS .nan (.fin 0) (.fin 10) (.fin 10) (.fin 20)
        (.fin 20) (.fin 100) .range = .warning ∧
    calculateSeverityJS .posInf (.fin 0) (.fin 10) (.fin 10) (.fin 20)
        (.fin 20) (.fin 100) .ascending = .critical ∧
    calculatePercentJS .nan (.fin 0) (.fin 100) = .nan := by
  decide

/-- C8 amended: for every finite threshold configuration, the transform
functions silently process non-finite inputs instead of rejecting them —
NaN is classified `critical`/`safe`/`warning` by the
ascending/inverted/range classifier respectively, −Infinity is classified
`safe` by the ascending classifier, and `calculatePercent` propagates NaN
to its result. -/
theorem nonfinite_silently_processed (nMin nMax wMin wMax cMin cMax
    mn mx : ℚ) :
    calculateSeverityJS .nan (.fin nMin) (.fin nMax) (.fin wMin)
        (.fin wMax) (.fin cMin) (.fin cMax) .ascending = .critical ∧
    calculateSeverityJS .nan (.fin nMin) (.fin nMax) (.fin wMin)
        (.fin wMax) (.fin cMin) (.fin cMax) .inverted = .safe ∧
    calculateSeverityJS .nan (.fin nMin) (.fin nMax) (.fin wMin)
        (.fin wMax) (.fin cMin) (.fin cMax) .range = .warning ∧
    calculateSeverityJS .negInf (.fin nMin) (.fin nMax) (.fin wMin)
        (.fin wMax) (.fin cMin) (.fin cMax) .ascending = .safe ∧
    calculatePercentJS .nan (.fin mn) (.fin mx) = .nan := by
  exact ⟨rfl, rfl, rfl, rfl, rfl⟩

end JSSem

end BeeLive
